import Mathlib

/-!
# Password-Strength-Analyzer: verification of the rule-evaluation core

Shallow embedding of the two evaluation cores of the repository:

* `src/main.cpp` — the C++ core (`PasswordChecker::check` and the four
  `PasswordCriterion` subclasses).  A C++ `std::string` is a byte sequence,
  so the C++ core is modelled over `List Nat` of byte values; `isupper`,
  `islower`, `isdigit` and `::tolower` are the "C"-locale (ASCII) functions.
* `src/script.js` — the JavaScript core (`PasswordChecker.check`).  Its
  `for ... of` loops iterate Unicode code points, so the JS core is modelled
  over `List Nat` of code points.  `String.prototype.length` counts UTF-16
  code units (2 for code points ≥ 0x10000), which the model reproduces.

Both cores produce a per-criterion `Result` (met flag, message, score) and a
`FullResult` (clamped total score plus the ordered result list).
-/

/-- Per-criterion verdict, mirroring `PasswordCriterion::Result` in
`main.cpp` (and the `{met, message, score}` object literals of
`script.js`). -/
structure Result where
  met : Bool
  message : String
  score : Nat
deriving Repr, DecidableEq

/-- Aggregate result, mirroring `PasswordChecker::FullResult` in
`main.cpp`. -/
structure FullResult where
  score : Nat
  results : List Result
deriving Repr, DecidableEq

/-- Character codes of a string literal, used to write passwords and the
fixed word/character sets of the sources readably. -/
def strCodes (s : String) : List Nat :=
  s.toList.map Char.toNat

/-- `needle` occurs as a contiguous substring of the second list; this is
`std::string::find(needle) != npos` in `main.cpp` and
`String.prototype.includes` in `script.js`. -/
def containsSub (needle : List Nat) : List Nat → Bool
  | [] => needle.isEmpty
  | c :: rest => needle.isPrefixOf (c :: rest) || containsSub needle rest

/-- The fixed weak-substring list.  `main.cpp` stores it in an
`unordered_set` and `script.js` in an array; both list exactly these ten
strings, and only the (order-independent) "does any occur" question is ever
asked of it. -/
def weakList : List (List Nat) :=
  [strCodes "password", strCodes "123456", strCodes "qwerty",
   strCodes "admin", strCodes "qazwsx", strCodes "12345678",
   strCodes "abc", strCodes "god", strCodes "user", strCodes "access"]

/-- The four per-character class flags accumulated by the
`TypeCriterion::check` loop (`hasUpper` … `hasSpecial`). -/
structure TypeFlags where
  hasUpper : Bool
  hasLower : Bool
  hasDigit : Bool
  hasSpecial : Bool
deriving Repr, DecidableEq

/-! ## C++ core (`src/main.cpp`) -/

/-- `isupper(c)` in the "C" locale: ASCII `A`–`Z`. -/
def cppIsUpper (c : Nat) : Bool := decide (65 ≤ c ∧ c ≤ 90)

/-- `islower(c)` in the "C" locale: ASCII `a`–`z`. -/
def cppIsLower (c : Nat) : Bool := decide (97 ≤ c ∧ c ≤ 122)

/-- `isdigit(c)`: ASCII `0`–`9`. -/
def cppIsDigit (c : Nat) : Bool := decide (48 ≤ c ∧ c ≤ 57)

/-- The special-character string of `TypeCriterion::check` in `main.cpp`:
`"!@#$%^&*()-+={}[]|\\:;\"'<>,.?/`~"` (after C++ unescaping). -/
def cppSpecialSet : List Nat :=
  strCodes "!@#$%^&*()-+=\x7b\x7d[]|\\:;\"'<>,.?/`~"

/-- `string("...").find(c) != string::npos` in the special-character test. -/
def cppIsSpecial (c : Nat) : Bool := cppSpecialSet.contains c

/-- The character loop of `TypeCriterion::check` in `main.cpp`: an
`if / else if` chain per character, so each character can set at most one
flag. -/
def cppTypeFlags : List Nat → TypeFlags → TypeFlags
  | [], fl => fl
  | c :: rest, fl =>
      if cppIsUpper c then cppTypeFlags rest { fl with hasUpper := true }
      else if cppIsLower c then cppTypeFlags rest { fl with hasLower := true }
      else if cppIsDigit c then cppTypeFlags rest { fl with hasDigit := true }
      else if cppIsSpecial c then cppTypeFlags rest { fl with hasSpecial := true }
      else cppTypeFlags rest fl

/-- `bool` summed as `int`, as in `hasUpper + hasLower + hasDigit +
hasSpecial`. -/
def b2n (b : Bool) : Nat := if b then 1 else 0

/-- The `missing` vector built by `TypeCriterion::check`. -/
def missingNames (fl : TypeFlags) : List String :=
  (if !fl.hasUpper then ["Uppercase"] else []) ++
  (if !fl.hasLower then ["Lowercase"] else []) ++
  (if !fl.hasDigit then ["Digit"] else []) ++
  (if !fl.hasSpecial then ["Special Char"] else [])

/-- The message-building loop of `TypeCriterion::check`: each entry is
followed by `", "`, except the last which is followed by `"."`. -/
def cppJoinMissing : List String → String
  | [] => ""
  | [x] => x ++ "."
  | x :: rest => x ++ ", " ++ cppJoinMissing rest

/-- `LengthCriterion::check` in `main.cpp`.  `minLength -
password.length()` is `size_t` arithmetic, evaluated only on the failure
branch where `length < 8`, so it equals truncated subtraction `8 - length`
there. -/
def cppLengthCheck (p : List Nat) : Result :=
  let isMet : Bool := decide (8 ≤ p.length)
  { met := isMet,
    message := if isMet then "Great! Password is 8+ characters long."
      else "Needs " ++ toString (8 - p.length) ++ " more character(s).",
    score := if isMet then 25 else 0 }

/-- `TypeCriterion::check` in `main.cpp`.  The awarded score
`floor(50 * (typesMet / 4.0))` is exact in `double` for `typesMet ≤ 4`
(the quotients 0, 12.5, 25, 37.5, 50 are representable), so it equals the
natural-number division `50 * typesMet / 4`. -/
def cppTypeCheck (p : List Nat) : Result :=
  let fl := cppTypeFlags p ⟨false, false, false, false⟩
  let typesMet := b2n fl.hasUpper + b2n fl.hasLower + b2n fl.hasDigit + b2n fl.hasSpecial
  let isMet : Bool := decide (typesMet = 4)
  { met := isMet,
    message := if isMet then "Excellent! All 4 character types are present."
      else "Missing: " ++ cppJoinMissing (missingNames fl),
    score := 50 * typesMet / 4 }

/-- In ECMAScript regex syntax (the default of `std::regex` and the syntax
of the JS literal), `.` matches any character except a line terminator; for
the C++ `char`-based engine the representable line terminators are `'\n'`
(10) and `'\r'` (13). -/
def cppDotOk (c : Nat) : Bool := decide (c ≠ 10 ∧ c ≠ 13)

/-- `regex_search(password, regex("(.)\1\1"))`: some position holds three
equal consecutive characters whose character matches `.`. -/
def hasTripleMatch (dotOk : Nat → Bool) : List Nat → Bool
  | a :: b :: c :: rest =>
      (dotOk a && a == b && b == c) || hasTripleMatch dotOk (b :: c :: rest)
  | _ => false

/-- `RepetitionCriterion::check` in `main.cpp`. -/
def cppRepCheck (p : List Nat) : Result :=
  let isWeak := hasTripleMatch cppDotOk p
  let isMet := !isWeak
  { met := isMet,
    message := if isMet then "No obvious triple repetitions found."
      else "Warning: Contains three or more identical characters in a row (e.g., 'aaa').",
    score := if isMet then 15 else 0 }

/-- `::tolower(c)` in the "C" locale: maps ASCII `A`–`Z` down, leaves every
other byte unchanged. -/
def cppToLower (c : Nat) : Nat :=
  if 65 ≤ c ∧ c ≤ 90 then c + 32 else c

/-- `DictionaryCriterion::check` in `main.cpp`. -/
def cppDictCheck (p : List Nat) : Result :=
  let lowerPassword := p.map cppToLower
  let isWeak := weakList.any (fun weak => containsSub weak lowerPassword)
  let isMet := !isWeak
  { met := isMet,
    message := if isMet then "Password does not contain common dictionary words."
      else "Warning: Contains a common or dictionary word/sequence.",
    score := if isMet then 10 else 0 }

/-- `PasswordChecker::check` in `main.cpp`: empty input short-circuits to
`{0, {}}` with no criterion invoked; otherwise the four criteria run in the
fixed order Length, Type (Complexity), Repetition, Dictionary, their scores
are summed and the total is clamped with `min(totalScore, 100)`. -/
def cppCheck (p : List Nat) : FullResult :=
  if p.isEmpty then { score := 0, results := [] }
  else
    let r1 := cppLengthCheck p
    let r2 := cppTypeCheck p
    let r3 := cppRepCheck p
    let r4 := cppDictCheck p
    { score := min (r1.score + r2.score + r3.score + r4.score) 100,
      results := [r1, r2, r3, r4] }

/-! ## JavaScript core (`src/script.js`)

The JS core is modelled over code-point lists.  The model is exact for
passwords of basic-multilingual-plane code points (every value used below is
far below 0x10000); for such strings `for ... of` iteration, code-unit
indexing and `includes` all see the same sequence. -/

/-- `char >= 'A' && char <= 'Z'` in `TypeCriterion.check` of `script.js`. -/
def jsIsUpper (c : Nat) : Bool := decide (65 ≤ c ∧ c ≤ 90)

/-- `char >= 'a' && char <= 'z'`. -/
def jsIsLower (c : Nat) : Bool := decide (97 ≤ c ∧ c ≤ 122)

/-- `char >= '0' && char <= '9'`. -/
def jsIsDigit (c : Nat) : Bool := decide (48 ≤ c ∧ c ≤ 57)

/-- The special-character string of `TypeCriterion.check` in `script.js`:
`'!@#$%^&*()-+=~`[]{}|\\:;"\'<>,.?/'` (after JS unescaping).  Same
characters as `cppSpecialSet`, listed in a different order. -/
def jsSpecialSet : List Nat :=
  strCodes "!@#$%^&*()-+=~`[]\x7b\x7d|\\:;\"'<>,.?/"

/-- `'...'.includes(char)`. -/
def jsIsSpecial (c : Nat) : Bool := jsSpecialSet.contains c

/-- The `for (const char of password)` loop of `TypeCriterion.check`: the
same `if / else if` chain as the C++ loop. -/
def jsTypeFlags : List Nat → TypeFlags → TypeFlags
  | [], fl => fl
  | c :: rest, fl =>
      if jsIsUpper c then jsTypeFlags rest { fl with hasUpper := true }
      else if jsIsLower c then jsTypeFlags rest { fl with hasLower := true }
      else if jsIsDigit c then jsTypeFlags rest { fl with hasDigit := true }
      else if jsIsSpecial c then jsTypeFlags rest { fl with hasSpecial := true }
      else jsTypeFlags rest fl

/-- `password.length` in JS counts UTF-16 code units: code points at or
above 0x10000 occupy a surrogate pair and count twice. -/
def jsLength : List Nat → Nat
  | [] => 0
  | c :: rest => (if c < 65536 then 1 else 2) + jsLength rest

/-- `LengthCriterion.check` in `script.js`; the failure message uses
`Math.max(0, 8 - password.length)`, which over the integers equals the
truncated subtraction `8 - length` of `Nat`. -/
def jsLengthCheck (p : List Nat) : Result :=
  let isMet : Bool := decide (8 ≤ jsLength p)
  { met := isMet,
    message := if isMet then "Great! Password is 8+ characters long."
      else "Needs " ++ toString (8 - jsLength p) ++ " more character(s).",
    score := if isMet then 25 else 0 }

/-- `missingTypes.join(', ')` of `script.js`. -/
def jsJoinMissing (l : List String) : String :=
  String.intercalate ", " l

/-- `TypeCriterion.check` in `script.js`; `Math.floor(50 * (typesMet / 4))`
is exact in `double` for `typesMet ≤ 4` and equals `50 * typesMet / 4` in
`Nat`. -/
def jsTypeCheck (p : List Nat) : Result :=
  let fl := jsTypeFlags p ⟨false, false, false, false⟩
  let typesMet := b2n fl.hasUpper + b2n fl.hasLower + b2n fl.hasDigit + b2n fl.hasSpecial
  let isMet : Bool := decide (typesMet = 4)
  { met := isMet,
    message := if isMet then "Excellent! All 4 character types are present."
      else "Missing: " ++ jsJoinMissing (missingNames fl) ++ ".",
    score := 50 * typesMet / 4 }

/-- In the ECMAScript regex `/(.)\1\1/`, `.` matches any character except
the four LineTerminator code points `\n` (10), `\r` (13), U+2028 and
U+2029. -/
def jsDotOk (c : Nat) : Bool :=
  decide (c ≠ 10 ∧ c ≠ 13 ∧ c ≠ 8232 ∧ c ≠ 8233)

/-- `RepetitionCriterion.check` in `script.js`. -/
def jsRepCheck (p : List Nat) : Result :=
  let isMet := !hasTripleMatch jsDotOk p
  { met := isMet,
    message := if isMet then "No obvious triple repetitions found."
      else "Warning: Contains three or more identical characters in a row (e.g., 'aaa').",
    score := if isMet then 15 else 0 }

/-- `String.prototype.toLowerCase`, restricted to the code points this
development evaluates it on (all below 0x100, where the mapping below is
the full Unicode lowercase mapping): ASCII `A`–`Z` and the Latin-1 capitals
U+00C0–U+00DE except `×` (U+00D7) map down by 32, the micro sign U+00B5
maps to Greek `μ` (U+03BC), every other such code point is unchanged. -/
def jsToLower (c : Nat) : Nat :=
  if 65 ≤ c ∧ c ≤ 90 then c + 32
  else if 192 ≤ c ∧ c ≤ 222 ∧ c ≠ 215 then c + 32
  else if c = 181 then 956
  else c

/-- `DictionaryCriterion.check` in `script.js`: `this.weakList.some(weak =>
lowerPassword.includes(weak))`. -/
def jsDictCheck (p : List Nat) : Result :=
  let lowerPassword := p.map jsToLower
  let isWeak := weakList.any (fun weak => containsSub weak lowerPassword)
  let isMet := !isWeak
  { met := isMet,
    message := if isMet then "Password does not contain common dictionary words."
      else "Warning: Contains a common or dictionary word/sequence.",
    score := if isMet then 10 else 0 }

/-- Aggregate result of `PasswordChecker.check` in `script.js`: each
per-criterion result carries the criterion's `name`
(`{ name: criterion.name, ...result }`). -/
structure JsFullResult where
  score : Nat
  results : List (String × Result)
deriving Repr, DecidableEq

/-- `PasswordChecker.check` in `script.js`.  `!password` is true exactly
for the empty string, so the guard `!password || password.length === 0`
short-circuits exactly on empty input. -/
def jsCheck (p : List Nat) : JsFullResult :=
  if p.isEmpty then { score := 0, results := [] }
  else
    let r1 := jsLengthCheck p
    let r2 := jsTypeCheck p
    let r3 := jsRepCheck p
    let r4 := jsDictCheck p
    { score := min (r1.score + r2.score + r3.score + r4.score) 100,
      results := [("Minimum Length (8 characters)", r1),
                  ("Character Complexity (4 types)", r2),
                  ("No Repetitive Sequences (AAA)", r3),
                  ("Not a Common Word/Pattern", r4)] }

/-- UTF-8 encoding of one code point (the byte sequence the C++ program
receives on stdin for that character in a UTF-8 terminal). -/
def utf8EncodeChar (c : Nat) : List Nat :=
  if c < 128 then [c]
  else if c < 2048 then [192 + c / 64, 128 + c % 64]
  else if c < 65536 then [224 + c / 4096, 128 + c / 64 % 64, 128 + c % 64]
  else [240 + c / 262144, 128 + c / 4096 % 64, 128 + c / 64 % 64, 128 + c % 64]

/-- UTF-8 encoding of a code-point sequence. -/
def utf8Encode (p : List Nat) : List Nat :=
  (p.map utf8EncodeChar).flatten

/-! ## Specification-side predicates -/

/-- Straight from the spec's words: the password contains a run of three
identical consecutive characters somewhere (any character). -/
def specHasTriple : List Nat → Bool
  | a :: b :: c :: rest => (a == b && b == c) || specHasTriple (b :: c :: rest)
  | _ => false

/-- The spec's `typesMet`: the number of the four character classes with at
least one representative present in the password. -/
def typesMetOf (p : List Nat) : Nat :=
  b2n (p.any cppIsUpper) + b2n (p.any cppIsLower) +
    b2n (p.any cppIsDigit) + b2n (p.any cppIsSpecial)

/-! ## Helper lemmas -/

lemma cppTypeFlags_eq (p : List Nat) (fl : TypeFlags) :
    cppTypeFlags p fl =
      ⟨fl.hasUpper || p.any cppIsUpper,
       fl.hasLower || p.any (fun c => !cppIsUpper c && cppIsLower c),
       fl.hasDigit || p.any (fun c => !cppIsUpper c && !cppIsLower c && cppIsDigit c),
       fl.hasSpecial || p.any
         (fun c => !cppIsUpper c && !cppIsLower c && !cppIsDigit c && cppIsSpecial c)⟩ := by
  induction p generalizing fl with
  | nil => simp [cppTypeFlags]
  | cons c rest ih =>
    by_cases h1 : cppIsUpper c
    · simp [cppTypeFlags, h1, ih, Bool.or_assoc]
    · by_cases h2 : cppIsLower c
      · simp [cppTypeFlags, h1, h2, ih, Bool.or_assoc]
      · by_cases h3 : cppIsDigit c
        · simp [cppTypeFlags, h1, h2, h3, ih, Bool.or_assoc]
        · by_cases h4 : cppIsSpecial c
          · simp [cppTypeFlags, h1, h2, h3, h4, ih, Bool.or_assoc]
          · simp [cppTypeFlags, h1, h2, h3, h4, ih]

/-- No character of the special set is an upper-case letter, a lower-case
letter or a digit. -/
lemma cppSpecial_not_alnum :
    ∀ c ∈ cppSpecialSet,
      cppIsUpper c = false ∧ cppIsLower c = false ∧ cppIsDigit c = false := by
  decide

lemma cppIsSpecial_mem {c : Nat} (h : cppIsSpecial c = true) : c ∈ cppSpecialSet := by
  simpa [cppIsSpecial, List.contains] using h

lemma lower_not_upper {c : Nat} (h : cppIsLower c = true) : cppIsUpper c = false := by
  simp only [cppIsLower, decide_eq_true_eq] at h
  simp only [cppIsUpper, decide_eq_false_iff_not]
  omega

lemma digit_not_upper {c : Nat} (h : cppIsDigit c = true) : cppIsUpper c = false := by
  simp only [cppIsDigit, decide_eq_true_eq] at h
  simp only [cppIsUpper, decide_eq_false_iff_not]
  omega

lemma digit_not_lower {c : Nat} (h : cppIsDigit c = true) : cppIsLower c = false := by
  simp only [cppIsDigit, decide_eq_true_eq] at h
  simp only [cppIsLower, decide_eq_false_iff_not]
  omega

lemma cpp_any_lower (p : List Nat) :
    p.any (fun c => !cppIsUpper c && cppIsLower c) = p.any cppIsLower := by
  induction p with
  | nil => rfl
  | cons c rest ih =>
    simp only [List.any_cons, ih]
    by_cases hl : cppIsLower c
    · simp [hl, lower_not_upper hl]
    · simp [hl]

lemma cpp_any_digit (p : List Nat) :
    p.any (fun c => !cppIsUpper c && !cppIsLower c && cppIsDigit c) = p.any cppIsDigit := by
  induction p with
  | nil => rfl
  | cons c rest ih =>
    simp only [List.any_cons, ih]
    by_cases hd : cppIsDigit c
    · simp [hd, digit_not_upper hd, digit_not_lower hd]
    · simp [hd]

lemma cpp_any_special (p : List Nat) :
    p.any (fun c => !cppIsUpper c && !cppIsLower c && !cppIsDigit c && cppIsSpecial c) =
      p.any cppIsSpecial := by
  induction p with
  | nil => rfl
  | cons c rest ih =>
    simp only [List.any_cons, ih]
    by_cases hs : cppIsSpecial c
    · obtain ⟨h1, h2, h3⟩ := cppSpecial_not_alnum c (cppIsSpecial_mem hs)
      simp [hs, h1, h2, h3]
    · simp [hs]

/-- The score and met flag of `cppTypeCheck` in terms of the spec's
`typesMet`. -/
lemma cppTypeCheck_spec (p : List Nat) :
    (cppTypeCheck p).score = 50 * typesMetOf p / 4 ∧
      ((cppTypeCheck p).met = true ↔ typesMetOf p = 4) := by
  have hfl := cppTypeFlags_eq p ⟨false, false, false, false⟩
  simp only [Bool.false_or] at hfl
  simp only [cppTypeCheck, hfl, cpp_any_lower, cpp_any_digit, cpp_any_special, typesMetOf]
  exact ⟨by trivial, by simp⟩

lemma b2n_le_one (b : Bool) : b2n b ≤ 1 := by
  cases b <;> simp [b2n]

lemma typesMetOf_le (p : List Nat) : typesMetOf p ≤ 4 := by
  have h1 := b2n_le_one (p.any cppIsUpper)
  have h2 := b2n_le_one (p.any cppIsLower)
  have h3 := b2n_le_one (p.any cppIsDigit)
  have h4 := b2n_le_one (p.any cppIsSpecial)
  unfold typesMetOf
  omega

/-- `containsSub` is exactly contiguous-substring (infix) occurrence. -/
lemma containsSub_iff (needle : List Nat) :
    ∀ l : List Nat, containsSub needle l = true ↔ needle <:+: l
  | [] => by simp [containsSub, List.isEmpty_iff]
  | c :: rest => by
    rw [containsSub]
    simp only [Bool.or_eq_true, List.isPrefixOf_iff_prefix, containsSub_iff needle rest]
    exact List.infix_cons_iff.symm

/-- `hasTripleMatch` finds exactly the positions `i` holding three equal
consecutive characters whose first character matches the dot. -/
lemma hasTripleMatch_iff (dot : Nat → Bool) :
    ∀ p : List Nat, hasTripleMatch dot p = true ↔
      ∃ i, i + 2 < p.length ∧ dot (p.getD i 0) = true ∧
        p.getD i 0 = p.getD (i + 1) 0 ∧ p.getD (i + 1) 0 = p.getD (i + 2) 0
  | [] => by
    constructor
    · intro h
      simp [hasTripleMatch] at h
    · rintro ⟨i, hi, -⟩
      simp only [List.length_nil] at hi
      omega
  | [a] => by
    constructor
    · intro h
      simp [hasTripleMatch] at h
    · rintro ⟨i, hi, -⟩
      simp only [List.length_cons, List.length_nil] at hi
      omega
  | [a, b] => by
    constructor
    · intro h
      simp [hasTripleMatch] at h
    · rintro ⟨i, hi, -⟩
      simp only [List.length_cons, List.length_nil] at hi
      omega
  | a :: b :: c :: rest => by
    rw [hasTripleMatch]
    simp only [Bool.or_eq_true, Bool.and_eq_true, beq_iff_eq,
      hasTripleMatch_iff dot (b :: c :: rest)]
    constructor
    · intro h
      rcases h with ⟨⟨hd, hab⟩, hbc⟩ | ⟨i, hi, h1, h2, h3⟩
      · refine ⟨0, ?_, ?_, ?_, ?_⟩
        · simp only [List.length_cons]
          omega
        · simpa using hd
        · simpa using hab
        · simpa using hbc
      · refine ⟨i + 1, ?_, ?_, ?_, ?_⟩
        · simp only [List.length_cons] at hi ⊢
          omega
        · simpa using h1
        · simpa using h2
        · simpa using h3
    · rintro ⟨i, hi, h1, h2, h3⟩
      match i with
      | 0 =>
        left
        simp only [List.getD_cons_zero, List.getD_cons_succ] at h1 h2 h3
        exact ⟨⟨h1, h2⟩, h3⟩
      | j + 1 =>
        right
        refine ⟨j, ?_, ?_, ?_, ?_⟩
        · simp only [List.length_cons] at hi ⊢
          omega
        · simpa using h1
        · simpa using h2
        · simpa using h3

lemma cppLengthCheck_met (p : List Nat) :
    (cppLengthCheck p).met = decide (8 ≤ p.length) := rfl

lemma cppLengthCheck_score (p : List Nat) :
    (cppLengthCheck p).score = if 8 ≤ p.length then 25 else 0 := by
  cases hm : decide (8 ≤ p.length) <;>
    simp_all [cppLengthCheck]

lemma cppRepCheck_met (p : List Nat) :
    (cppRepCheck p).met = !hasTripleMatch cppDotOk p := rfl

lemma cppRepCheck_score (p : List Nat) :
    (cppRepCheck p).score = if hasTripleMatch cppDotOk p = false then 15 else 0 := by
  cases hm : hasTripleMatch cppDotOk p <;>
    simp_all [cppRepCheck]

lemma cppDictCheck_met (p : List Nat) :
    (cppDictCheck p).met = !weakList.any (fun weak => containsSub weak (p.map cppToLower)) := rfl

lemma cppDictCheck_met_iff (p : List Nat) :
    (cppDictCheck p).met = true ↔ ∀ w ∈ weakList, ¬w <:+: p.map cppToLower := by
  rw [cppDictCheck_met]
  simp only [Bool.not_eq_true', List.any_eq_false, containsSub_iff]

lemma cppDictCheck_score (p : List Nat) :
    (cppDictCheck p).score =
      if weakList.any (fun weak => containsSub weak (p.map cppToLower)) = false then 10 else 0 := by
  cases hm : weakList.any (fun weak => containsSub weak (p.map cppToLower)) <;>
    simp_all [cppDictCheck]

lemma cppTypeCheck_met (p : List Nat) :
    (cppTypeCheck p).met = true ↔ typesMetOf p = 4 :=
  (cppTypeCheck_spec p).2

lemma cppTypeCheck_score_eq (p : List Nat) :
    (cppTypeCheck p).score = 50 * typesMetOf p / 4 :=
  (cppTypeCheck_spec p).1

/-- The complexity score is maximal exactly when all four classes are
present, and is at most 37 otherwise. -/
lemma cppTypeCheck_score_max (p : List Nat) :
    ((cppTypeCheck p).score = 50 ↔ (cppTypeCheck p).met = true) ∧
      ((cppTypeCheck p).met = false → (cppTypeCheck p).score ≤ 37) := by
  rw [cppTypeCheck_score_eq]
  have hle := typesMetOf_le p
  have hmet := cppTypeCheck_met p
  constructor
  · rw [hmet]
    interval_cases h : typesMetOf p <;> omega
  · intro hf
    have : ¬typesMetOf p = 4 := by
      intro h4
      rw [← hmet] at h4
      simp [h4] at hf
    interval_cases h : typesMetOf p <;> omega

/-- A match of the dot-restricted pattern is in particular a run of three
identical characters. -/
lemma specHasTriple_of_match (dot : Nat → Bool) :
    ∀ p : List Nat, hasTripleMatch dot p = true → specHasTriple p = true
  | [] => by simp [hasTripleMatch]
  | [a] => by simp [hasTripleMatch]
  | [a, b] => by simp [hasTripleMatch]
  | a :: b :: c :: rest => by
    rw [hasTripleMatch, specHasTriple]
    intro h
    rcases (Bool.or_eq_true _ _).mp h with h | h
    · apply Bool.or_eq_true_iff.mpr
      left
      revert h
      cases dot a <;> cases a == b <;> cases b == c <;> simp_all
    · exact Bool.or_eq_true_iff.mpr (Or.inr (specHasTriple_of_match dot (b :: c :: rest) h))

/-! ## Claims -/

/-- Claim C1, counterexample: for the input "Passw0rd!" the evaluation does
NOT return total score 90 with met flags [true, true, true, false]; the
lower-cased input "passw0rd!" has a digit zero where "password" has the
letter o, so no weak substring occurs and DictionaryCriterion passes
too. -/
theorem c1_passw0rd_counterexample :
    ¬((cppCheck (strCodes "Passw0rd!")).score = 90 ∧
      (cppCheck (strCodes "Passw0rd!")).results.map Result.met =
        [true, true, true, false]) := by
  decide

/-- Claim C1, amended: for the input "Passw0rd!" the evaluation (in both
cores) returns total score 100 with per-criterion met flags
[true, true, true, true] in the order Length, Complexity, Repetition,
Dictionary: it passes all four criteria. -/
theorem c1_passw0rd_amended :
    (cppCheck (strCodes "Passw0rd!")).score = 100 ∧
      (cppCheck (strCodes "Passw0rd!")).results.map Result.met =
        [true, true, true, true] ∧
      (jsCheck (strCodes "Passw0rd!")).score = 100 ∧
      (jsCheck (strCodes "Passw0rd!")).results.map (fun r => r.2.met) =
        [true, true, true, true] := by
  decide

/-- Claim C2: for every password the total score is at most 100 (it is a
`Nat`, hence also at least 0); for every non-empty password it equals
`min 100 (sum of the four verdict scores)`; and for the empty password the
result is total score 0 with an empty verdict list — the empty case is the
first branch of `cppCheck`, taken before any criterion function is
applied. -/
theorem c2_total_score_bounds :
    ∀ p : List Nat, (cppCheck p).score ≤ 100 ∧
      (p ≠ [] →
        (cppCheck p).score = min 100 ((cppCheck p).results.map Result.score).sum) ∧
      cppCheck [] = ⟨0, []⟩ := by
  intro p
  refine ⟨?_, ?_, rfl⟩
  · by_cases hp : p = []
    · subst hp
      simp [cppCheck]
    · have hne : p.isEmpty = false := by simpa [List.isEmpty_iff] using hp
      simp only [cppCheck, hne]
      simp only [Bool.false_eq_true, if_false]
      exact Nat.min_le_right _ _
  · intro hp
    have hne : p.isEmpty = false := by simpa [List.isEmpty_iff] using hp
    simp only [cppCheck, hne]
    simp only [Bool.false_eq_true, if_false, List.map_cons, List.map_nil,
      List.sum_cons, List.sum_nil]
    omega

/-- Claim C2, witness at "abc": non-empty, and the total equals the clamped
verdict-score sum. -/
theorem c2_total_score_bounds_witness :
    strCodes "abc" ≠ [] ∧
      (cppCheck (strCodes "abc")).score =
        min 100 ((cppCheck (strCodes "abc")).results.map Result.score).sum :=
  ⟨by decide, (c2_total_score_bounds (strCodes "abc")).2.1 (by decide)⟩

/-- Claim C3, counterexample: the password "\n\n\n" is a run of three
identical characters, yet RepetitionCriterion reports met = true with full
score 15 (in both cores): the regex `(.)\1\1` uses `.`, which does not
match line-terminator characters. -/
theorem c3_repetition_counterexample :
    specHasTriple (strCodes "\n\n\n") = true ∧
      (cppRepCheck (strCodes "\n\n\n")).met = true ∧
      (cppRepCheck (strCodes "\n\n\n")).score = 15 ∧
      (jsRepCheck (strCodes "\n\n\n")).met = true := by
  decide

/-- Claim C3, amended: for every non-empty password, RepetitionCriterion's
verdict has met = true iff the password contains no run of three or more
identical consecutive characters whose repeated character is not a line
terminator (`\n` or `\r` for the byte-based C++ engine), with score 15 when
met and 0 otherwise. -/
theorem c3_repetition_amended (p : List Nat) (h : p ≠ []) :
    ((cppRepCheck p).met = true ↔
      ¬∃ i, i + 2 < p.length ∧ p.getD i 0 = p.getD (i + 1) 0 ∧
        p.getD (i + 1) 0 = p.getD (i + 2) 0 ∧ p.getD i 0 ≠ 10 ∧ p.getD i 0 ≠ 13) ∧
      (cppRepCheck p).score = (if (cppRepCheck p).met = true then 15 else 0) := by
  constructor
  · rw [cppRepCheck_met]
    rw [show ((!hasTripleMatch cppDotOk p) = true) ↔ hasTripleMatch cppDotOk p = false from
      by simp]
    rw [show (hasTripleMatch cppDotOk p = false) ↔ ¬hasTripleMatch cppDotOk p = true from
      by simp]
    rw [hasTripleMatch_iff]
    apply not_congr
    apply exists_congr
    intro i
    simp only [cppDotOk, decide_eq_true_eq]
    tauto
  · rw [cppRepCheck_score, cppRepCheck_met]
    cases hm : hasTripleMatch cppDotOk p <;> simp

/-- Claim C3, witness at "aa1": only two repeats, so met = true with score
15, and the amended characterization holds there. -/
theorem c3_repetition_amended_witness :
    (cppRepCheck (strCodes "aa1")).met = true ∧
      (cppRepCheck (strCodes "aa1")).score = 15 ∧
      ((cppRepCheck (strCodes "aa1")).met = true ↔
        ¬∃ i, i + 2 < (strCodes "aa1").length ∧
          (strCodes "aa1").getD i 0 = (strCodes "aa1").getD (i + 1) 0 ∧
          (strCodes "aa1").getD (i + 1) 0 = (strCodes "aa1").getD (i + 2) 0 ∧
          (strCodes "aa1").getD i 0 ≠ 10 ∧ (strCodes "aa1").getD i 0 ≠ 13) :=
  ⟨by decide, by decide, (c3_repetition_amended (strCodes "aa1") (by decide)).1⟩

/-- Claim C4: for every non-empty password, ComplexityCriterion's score is
exactly `50 * typesMet / 4` rounded down, where `typesMet` counts the four
character classes with at least one representative; met = true iff
typesMet = 4; and the five possible typesMet values yield exactly
0, 12, 25, 37, 50. -/
theorem c4_complexity_score (p : List Nat) (h : p ≠ []) :
    (cppTypeCheck p).score = 50 * typesMetOf p / 4 ∧
      ((cppTypeCheck p).met = true ↔ typesMetOf p = 4) ∧
      50 * 0 / 4 = 0 ∧ 50 * 1 / 4 = 12 ∧ 50 * 2 / 4 = 25 ∧
      50 * 3 / 4 = 37 ∧ 50 * 4 / 4 = 50 :=
  ⟨cppTypeCheck_score_eq p, cppTypeCheck_met p, rfl, rfl, rfl, rfl, rfl⟩

/-- Claim C4, witness at "lowercase" (only lower-case letters): typesMet is
1 and the awarded score is 12 with met = false, as the spec's example
requires. -/
theorem c4_complexity_score_witness :
    (cppTypeCheck (strCodes "lowercase")).score =
        50 * typesMetOf (strCodes "lowercase") / 4 ∧
      typesMetOf (strCodes "lowercase") = 1 ∧
      (cppTypeCheck (strCodes "lowercase")).score = 12 ∧
      (cppTypeCheck (strCodes "lowercase")).met = false :=
  ⟨(c4_complexity_score (strCodes "lowercase") (by decide)).1, by decide, by decide, by decide⟩

/-- Claim C5: a character in none of the four classes (not an ASCII
upper-case letter, lower-case letter, digit, or member of the special set)
contributes to no class: inserting it anywhere leaves ComplexityCriterion's
whole verdict unchanged; and the priority-ordered else-if classification
lets a single character raise at most one flag. -/
theorem c5_unclassified_chars (pre post : List Nat) (c : Nat)
    (h : cppIsUpper c = false ∧ cppIsLower c = false ∧ cppIsDigit c = false ∧
      cppIsSpecial c = false) :
    cppTypeCheck (pre ++ c :: post) = cppTypeCheck (pre ++ post) ∧
      ∀ d : Nat,
        b2n (cppTypeFlags [d] ⟨false, false, false, false⟩).hasUpper +
          b2n (cppTypeFlags [d] ⟨false, false, false, false⟩).hasLower +
          b2n (cppTypeFlags [d] ⟨false, false, false, false⟩).hasDigit +
          b2n (cppTypeFlags [d] ⟨false, false, false, false⟩).hasSpecial ≤ 1 := by
  obtain ⟨h1, h2, h3, h4⟩ := h
  have hfl : ∀ fl, cppTypeFlags (pre ++ c :: post) fl = cppTypeFlags (pre ++ post) fl := by
    induction pre with
    | nil =>
      intro fl
      simp [cppTypeFlags, h1, h2, h3, h4]
    | cons a rest ih =>
      intro fl
      simp only [List.cons_append, cppTypeFlags]
      split_ifs <;> exact ih _
  constructor
  · simp only [cppTypeCheck, hfl]
  · intro d
    simp only [cppTypeFlags]
    by_cases g1 : cppIsUpper d
    · simp [g1, b2n]
    · by_cases g2 : cppIsLower d
      · simp [g1, g2, b2n]
      · by_cases g3 : cppIsDigit d
        · simp [g1, g2, g3, b2n]
        · by_cases g4 : cppIsSpecial d
          · simp [g1, g2, g3, g4, b2n]
          · simp [g1, g2, g3, g4, b2n]

/-- Claim C5, witness: inserting a space (code 32, classified by no class)
into "Ab3!" leaves the complexity verdict unchanged. -/
theorem c5_unclassified_chars_witness :
    cppTypeCheck (strCodes "Ab" ++ 32 :: strCodes "3!") =
      cppTypeCheck (strCodes "Ab" ++ strCodes "3!") :=
  (c5_unclassified_chars (strCodes "Ab") (strCodes "3!") 32 (by decide)).1

/-- Claim C6: for every non-empty password, LengthCriterion's met flag is
true iff the length is at least 8, the score is 25 when met and 0
otherwise, and on failure the message states exactly `8 - length` more
characters are needed — a value between 1 and 7, never negative. -/
theorem c6_length_criterion (p : List Nat) (h : p ≠ []) :
    ((cppLengthCheck p).met = true ↔ 8 ≤ p.length) ∧
      (cppLengthCheck p).score = (if 8 ≤ p.length then 25 else 0) ∧
      (¬8 ≤ p.length →
        (cppLengthCheck p).message =
          "Needs " ++ toString (8 - p.length) ++ " more character(s)." ∧
        1 ≤ 8 - p.length ∧ 8 - p.length ≤ 7) := by
  refine ⟨?_, cppLengthCheck_score p, ?_⟩
  · rw [cppLengthCheck_met]
    simp
  · intro hlt
    have hlen : 1 ≤ p.length := List.length_pos.mpr h
    have hm : (decide (8 ≤ p.length)) = false := by
      simp only [decide_eq_false_iff_not]
      exact hlt
    refine ⟨?_, by omega, by omega⟩
    simp [cppLengthCheck, hm]

/-- Claim C6, witness at "abc": met = false, score 0, and the message
states 5 more characters are needed (8 - 3). -/
theorem c6_length_criterion_witness :
    (cppLengthCheck (strCodes "abc")).met = false ∧
      (cppLengthCheck (strCodes "abc")).score = 0 ∧
      (cppLengthCheck (strCodes "abc")).message =
        "Needs " ++ toString (8 - (strCodes "abc").length) ++ " more character(s)." ∧
      8 - (strCodes "abc").length = 5 :=
  ⟨by decide, by decide,
   ((c6_length_criterion (strCodes "abc") (by decide)).2.2 (by decide)).1, by decide⟩

/-- Claim C7: for every non-empty password, DictionaryCriterion lower-cases
the input and has met = true iff none of the ten weak terms occurs in the
lower-cased password as a contiguous substring; the score is 10 when met
and 0 otherwise; and "MyPassword99!" yields met = false. -/
theorem c7_dictionary (p : List Nat) (h : p ≠ []) :
    ((cppDictCheck p).met = true ↔ ∀ w ∈ weakList, ¬w <:+: p.map cppToLower) ∧
      (cppDictCheck p).score = (if (cppDictCheck p).met = true then 10 else 0) ∧
      (cppDictCheck (strCodes "MyPassword99!")).met = false := by
  refine ⟨cppDictCheck_met_iff p, ?_, by decide⟩
  rw [cppDictCheck_score, cppDictCheck_met]
  cases hm : weakList.any (fun weak => containsSub weak (p.map cppToLower)) <;> simp

/-- Claim C7, witness: "Zz9!Qq8#" contains no weak term (met = true, score
10) and the characterization instance holds for it. -/
theorem c7_dictionary_witness :
    (cppDictCheck (strCodes "Zz9!Qq8#")).met = true ∧
      (cppDictCheck (strCodes "Zz9!Qq8#")).score = 10 ∧
      ((cppDictCheck (strCodes "Zz9!Qq8#")).met = true ↔
        ∀ w ∈ weakList, ¬w <:+: (strCodes "Zz9!Qq8#").map cppToLower) :=
  ⟨by decide, by decide, (c7_dictionary (strCodes "Zz9!Qq8#") (by decide)).1⟩

/-- Claim C8: any password of length at least 8 with at least one
character of each of the four classes, no run of three identical
consecutive characters, and no weak substring in its lower-cased form,
scores exactly 100. -/
theorem c8_perfect_score (p : List Nat)
    (hlen : 8 ≤ p.length)
    (hu : p.any cppIsUpper = true) (hl : p.any cppIsLower = true)
    (hd : p.any cppIsDigit = true) (hs : p.any cppIsSpecial = true)
    (hrep : specHasTriple p = false)
    (hdict : ∀ w ∈ weakList, ¬w <:+: p.map cppToLower) :
    (cppCheck p).score = 100 := by
  have hne : p.isEmpty = false := by
    cases p
    · simp at hlen
    · rfl
  have hs1 : (cppLengthCheck p).score = 25 := by
    rw [cppLengthCheck_score, if_pos hlen]
  have ht4 : typesMetOf p = 4 := by
    unfold typesMetOf
    rw [hu, hl, hd, hs]
    rfl
  have hs2 : (cppTypeCheck p).score = 50 := by
    rw [cppTypeCheck_score_eq, ht4]
  have hmat : hasTripleMatch cppDotOk p = false := by
    cases hm : hasTripleMatch cppDotOk p
    · rfl
    · exact absurd (specHasTriple_of_match cppDotOk p hm) (by simp [hrep])
  have hs3 : (cppRepCheck p).score = 15 := by
    rw [cppRepCheck_score, if_pos hmat]
  have hany : weakList.any (fun weak => containsSub weak (p.map cppToLower)) = false := by
    rw [List.any_eq_false]
    intro w hw
    rw [containsSub_iff]
    exact hdict w hw
  have hs4 : (cppDictCheck p).score = 10 := by
    rw [cppDictCheck_score, if_pos hany]
  simp only [cppCheck, hne, Bool.false_eq_true, if_false]
  rw [hs1, hs2, hs3, hs4]
  decide

/-- Claim C9: for every non-empty password, each criterion's met flag is
true iff its awarded score equals that criterion's maximum (25, 50, 15, 10
respectively), and the total score is 100 iff all four met flags are
true. -/
theorem c9_met_iff_max (p : List Nat) (h : p ≠ []) :
    ((cppLengthCheck p).met = true ↔ (cppLengthCheck p).score = 25) ∧
      ((cppTypeCheck p).met = true ↔ (cppTypeCheck p).score = 50) ∧
      ((cppRepCheck p).met = true ↔ (cppRepCheck p).score = 15) ∧
      ((cppDictCheck p).met = true ↔ (cppDictCheck p).score = 10) ∧
      ((cppCheck p).score = 100 ↔ (cppCheck p).results.all Result.met = true) := by
  have hne : p.isEmpty = false := by simpa [List.isEmpty_iff] using h
  have htype := cppTypeCheck_score_max p
  have hlen : (cppLengthCheck p).met = true ↔ (cppLengthCheck p).score = 25 := by
    rw [cppLengthCheck_met, cppLengthCheck_score]
    by_cases h8 : 8 ≤ p.length <;> simp [h8]
  have hrepiff : (cppRepCheck p).met = true ↔ (cppRepCheck p).score = 15 := by
    rw [cppRepCheck_met, cppRepCheck_score]
    cases hm : hasTripleMatch cppDotOk p <;> simp
  have hdictiff : (cppDictCheck p).met = true ↔ (cppDictCheck p).score = 10 := by
    rw [cppDictCheck_met, cppDictCheck_score]
    cases hm : weakList.any (fun weak => containsSub weak (p.map cppToLower)) <;> simp
  refine ⟨hlen, htype.1.symm, hrepiff, hdictiff, ?_⟩
  have e1 : (cppLengthCheck p).score = (if (cppLengthCheck p).met = true then 25 else 0) := by
    rw [cppLengthCheck_met, cppLengthCheck_score]
    by_cases h8 : 8 ≤ p.length <;> simp [h8]
  have e3 : (cppRepCheck p).score = (if (cppRepCheck p).met = true then 15 else 0) := by
    rw [cppRepCheck_met, cppRepCheck_score]
    cases hm : hasTripleMatch cppDotOk p <;> simp
  have e4 : (cppDictCheck p).score = (if (cppDictCheck p).met = true then 10 else 0) := by
    rw [cppDictCheck_met, cppDictCheck_score]
    cases hm : weakList.any (fun weak => containsSub weak (p.map cppToLower)) <;> simp
  simp only [cppCheck, hne, Bool.false_eq_true, if_false, List.all_cons, List.all_nil,
    Bool.and_true]
  rw [e1, e3, e4]
  cases hm1 : (cppLengthCheck p).met <;> cases hm2 : (cppTypeCheck p).met <;>
    cases hm3 : (cppRepCheck p).met <;> cases hm4 : (cppDictCheck p).met
  all_goals try (have hs2 : (cppTypeCheck p).score = 50 := htype.1.mpr (by assumption); rw [hs2])
  all_goals try (have hb : (cppTypeCheck p).score ≤ 37 := htype.2 (by assumption))
  all_goals simp
  all_goals try omega

/-- Claim C9, witness at "aa1": the per-criterion equivalences and the
total-score equivalence hold there. -/
theorem c9_met_iff_max_witness :
    ((cppCheck (strCodes "aa1")).score = 100 ↔
      (cppCheck (strCodes "aa1")).results.all Result.met = true) ∧
      ((cppDictCheck (strCodes "aa1")).met = true ↔
        (cppDictCheck (strCodes "aa1")).score = 10) :=
  ⟨(c9_met_iff_max (strCodes "aa1") (by decide)).2.2.2.2,
   (c9_met_iff_max (strCodes "aa1") (by decide)).2.2.2.1⟩

/-- Claim C8, witness: "Xk3!mqal" meets all the hypotheses and scores
100. -/
theorem c8_perfect_score_witness : (cppCheck (strCodes "Xk3!mqal")).score = 100 := by
  refine c8_perfect_score (strCodes "Xk3!mqal") (by decide) (by decide) (by decide)
    (by decide) (by decide) (by decide) ?_
  intro w hw
  rw [← containsSub_iff]
  have hall : weakList.any
      (fun weak => containsSub weak ((strCodes "Xk3!mqal").map cppToLower)) = false := by
    decide
  exact List.any_eq_false.mp hall w hw

/-! ## C++ / JavaScript core equivalence (claim C10) -/

/-- The two special-character sets list the same 30 characters. -/
lemma isSpecial_eq (c : Nat) : cppIsSpecial c = jsIsSpecial c := by
  rw [Bool.eq_iff_iff]
  simp only [cppIsSpecial, jsIsSpecial, List.contains, List.elem_iff]
  constructor
  · intro hm
    exact (by decide : ∀ x ∈ cppSpecialSet, x ∈ jsSpecialSet) c hm
  · intro hm
    exact (by decide : ∀ x ∈ jsSpecialSet, x ∈ cppSpecialSet) c hm

/-- The two character-class loops compute the same flags on every input. -/
lemma typeFlags_cpp_js (p : List Nat) : ∀ fl, cppTypeFlags p fl = jsTypeFlags p fl := by
  induction p with
  | nil => intro fl; rfl
  | cons c rest ih =>
    intro fl
    simp only [cppTypeFlags, jsTypeFlags,
      show cppIsUpper = jsIsUpper from rfl, show cppIsLower = jsIsLower from rfl,
      show cppIsDigit = jsIsDigit from rfl, isSpecial_eq, ih]

/-- For code points below 128 every character is one UTF-16 code unit, so
the JS length is the character count. -/
lemma jsLength_eq (p : List Nat) (h : ∀ c ∈ p, c < 128) : jsLength p = p.length := by
  induction p with
  | nil => rfl
  | cons c rest ih =>
    have hc : c < 65536 := by
      have := h c (List.mem_cons_self c rest)
      omega
    simp only [jsLength, List.length_cons]
    rw [if_pos hc, ih (fun x hx => h x (List.mem_cons_of_mem c hx))]
    omega

lemma dotOk_eq {c : Nat} (h : c < 128) : cppDotOk c = jsDotOk c := by
  simp only [cppDotOk, jsDotOk, decide_eq_decide]
  omega

lemma hasTripleMatch_cpp_js :
    ∀ p : List Nat, (∀ c ∈ p, c < 128) →
      hasTripleMatch cppDotOk p = hasTripleMatch jsDotOk p
  | [] => fun _ => rfl
  | [a] => fun _ => rfl
  | [a, b] => fun _ => rfl
  | a :: b :: c :: rest => fun h => by
    simp only [hasTripleMatch]
    rw [dotOk_eq (h a (List.mem_cons_self a _)),
      hasTripleMatch_cpp_js (b :: c :: rest) (fun x hx => h x (List.mem_cons_of_mem a hx))]

/-- On ASCII code points the two lower-casing functions agree (they can
differ only at the Latin-1 capitals and the micro sign, all at or above
0xB5). -/
lemma toLower_eq {c : Nat} (h : c < 128) : cppToLower c = jsToLower c := by
  unfold cppToLower jsToLower
  split_ifs <;> omega

lemma map_toLower_eq (p : List Nat) (h : ∀ c ∈ p, c < 128) :
    p.map cppToLower = p.map jsToLower := by
  induction p with
  | nil => rfl
  | cons c rest ih =>
    simp only [List.map_cons]
    rw [toLower_eq (h c (List.mem_cons_self c rest)),
      ih (fun x hx => h x (List.mem_cons_of_mem c hx))]

lemma lengthCheck_cpp_js (p : List Nat) (h : ∀ c ∈ p, c < 128) :
    cppLengthCheck p = jsLengthCheck p := by
  unfold cppLengthCheck jsLengthCheck
  rw [jsLength_eq p h]

/-- The two complexity criteria agree on met flag and score for every
input (their failure messages are assembled differently). -/
lemma typeCheck_met_score_cpp_js (p : List Nat) :
    (cppTypeCheck p).met = (jsTypeCheck p).met ∧
      (cppTypeCheck p).score = (jsTypeCheck p).score := by
  unfold cppTypeCheck jsTypeCheck
  rw [typeFlags_cpp_js p ⟨false, false, false, false⟩]
  exact ⟨rfl, rfl⟩

lemma repCheck_cpp_js (p : List Nat) (h : ∀ c ∈ p, c < 128) :
    cppRepCheck p = jsRepCheck p := by
  unfold cppRepCheck jsRepCheck
  rw [hasTripleMatch_cpp_js p h]

lemma dictCheck_cpp_js (p : List Nat) (h : ∀ c ∈ p, c < 128) :
    cppDictCheck p = jsDictCheck p := by
  unfold cppDictCheck jsDictCheck
  rw [map_toLower_eq p h]

/-- Claim C10, amended: the C++ core and the JS core return equal results
— same total score and, position by position, the same met flags and
per-criterion scores — for every ASCII password (every character code
below 128; such strings have identical byte and code-point sequences).
They can diverge on non-ASCII passwords, where the C++ core sees UTF-8
bytes but the JS core sees code points. -/
theorem c10_core_equivalence (p : List Nat) (h : ∀ c ∈ p, c < 128) :
    (cppCheck p).score = (jsCheck p).score ∧
      (cppCheck p).results.map Result.met =
        (jsCheck p).results.map (fun r => r.2.met) ∧
      (cppCheck p).results.map Result.score =
        (jsCheck p).results.map (fun r => r.2.score) := by
  by_cases hp : p.isEmpty
  · simp [cppCheck, jsCheck, hp]
  · have hne : p.isEmpty = false := by
      cases hb : p.isEmpty
      · rfl
      · exact absurd hb hp
    have h1 := lengthCheck_cpp_js p h
    have h2 := typeCheck_met_score_cpp_js p
    have h3 := repCheck_cpp_js p h
    have h4 := dictCheck_cpp_js p h
    simp only [cppCheck, jsCheck, hne, Bool.false_eq_true, if_false, List.map_cons,
      List.map_nil]
    refine ⟨?_, ?_, ?_⟩
    · rw [h1, h3, h4, h2.2]
    · rw [h1, h3, h4, h2.1]
    · rw [h1, h3, h4, h2.2]

/-- Claim C10, counterexample: for the password "ñññ" (three U+00F1 code
points; UTF-8 bytes C3 B1 C3 B1 C3 B1) the C++ core returns total score 25
(no three identical consecutive bytes, so RepetitionCriterion passes)
while the JS core returns 10 (the code-point triple trips it), so the
cores are not equal on every password string. -/
theorem c10_counterexample :
    ¬(cppCheck (utf8Encode (strCodes "ñññ"))).score = (jsCheck (strCodes "ñññ")).score := by
  decide

/-- Claim C10, witness: on the ASCII password "Passw0rd" the two cores
agree (instantiating the amended equivalence). -/
theorem c10_core_equivalence_witness :
    (cppCheck (strCodes "Passw0rd")).score = (jsCheck (strCodes "Passw0rd")).score :=
  (c10_core_equivalence (strCodes "Passw0rd") (by decide)).1
